import Mathlib

/-!
Verification of the `SplashScreen` component
(`src/src/components/common/SplashScreen.tsx`).

The component owns one outer timer (1500 time units).  When it fires, a
try/catch block runs: if `onComplete` is provided it is invoked; else if
`redirectTo` is truthy the path is normalized (one leading `/` stripped),
the primary navigation service is asked to navigate there, and an inner
fallback timer (300 units, i.e. absolute time 1800) is scheduled which
assigns `window.location.href = "#/" ++ cleanPath` when the current
pathname does not contain the clean path; else navigation to `"/home"` is
requested.  A thrown exception is caught, logged, and
`window.location.hash = "#/home"` is assigned.  The cleanup function
clears only the outer timer.

We embed an execution as the timed list of externally visible events it
produces, parameterized by the environment: which external operations
throw, the pathname observed at the fallback check, and the unmount time.
-/

namespace SplashScreen

/-- Externally visible effects of the component. -/
inductive Event where
  | callOnComplete : Event
  | navigate : String → Event
  | setHref : String → Event
  | setHash : String → Event
  | logError : Event
deriving DecidableEq

/-- The props of the component: whether the optional `onComplete` callback
is provided, and the optional `redirectTo` string. -/
structure Props where
  onComplete : Bool
  redirectTo : Option String
deriving DecidableEq

/-- The external world as observed by one execution: which of the three
operations inside the `try` block throw, the value of
`document.location.pathname` at the time of the 300-unit fallback check,
and the time at which the instance unmounts (`none` = never). -/
structure Env where
  onCompleteThrows : Bool
  navigateThrows : Bool
  scheduleThrows : Bool
  pathname : String
  unmountTime : Option Nat
deriving DecidableEq

/-- JS truthiness of `string | undefined`: `undefined` and `""` are falsy. -/
def truthy : Option String → Bool
  | none => false
  | some s => !s.data.isEmpty

/-- Normalization of `redirectTo`: the regex replace in the source strips
a single leading separator when present. -/
def cleanPathOf (s : String) : String :=
  match s.data with
  | '/' :: rest => String.mk rest
  | _ => s

/-- Contiguous-substring test on character lists, the semantics of
JS `hay.indexOf(sub) !== -1`. -/
def containsSubstr : List Char → List Char → Bool
  | [], sub => sub.isEmpty
  | c :: t, sub => List.isPrefixOf sub (c :: t) || containsSubstr t sub

/-- Whether `document.location.pathname` contains the clean path, the test
the source performs with indexOf. -/
def pathContains (pathname cleanPath : String) : Bool :=
  containsSubstr pathname.data cleanPath.data

/-- Events produced by the inner 300-unit fallback check: if the current
pathname does not contain the clean path, assign
the string `"#/" ++ cleanPath` to `window.location.href`. -/
def fallbackCheckEvents (cleanPath : String) (env : Env) : List Event :=
  if pathContains env.pathname cleanPath then []
  else [Event.setHref ("#/" ++ cleanPath)]

/-- The body of the outer timer callback (the try/catch block at absolute
time 1500): the events it emits, and whether the inner fallback timer got
scheduled.  A throwing operation still emits its own event (the call was
made), after which control transfers to the `catch` clause, which logs the
error and assigns `"#/home"` to `window.location.hash`. -/
def postTimerAction (p : Props) (env : Env) : List Event × Bool :=
  if p.onComplete then
    if env.onCompleteThrows then
      ([Event.callOnComplete, Event.logError, Event.setHash "#/home"], false)
    else
      ([Event.callOnComplete], false)
  else if truthy p.redirectTo then
    if env.navigateThrows then
      ([Event.navigate (cleanPathOf ((p.redirectTo).getD "")),
        Event.logError, Event.setHash "#/home"], false)
    else if env.scheduleThrows then
      ([Event.navigate (cleanPathOf ((p.redirectTo).getD "")),
        Event.logError, Event.setHash "#/home"], false)
    else
      ([Event.navigate (cleanPathOf ((p.redirectTo).getD ""))], true)
  else
    if env.navigateThrows then
      ([Event.navigate "/home", Event.logError, Event.setHash "#/home"], false)
    else
      ([Event.navigate "/home"], false)

/-- Whether the outer 1500-unit timer fires: the cleanup function clears it,
so it fires iff unmount happens strictly after time 1500. -/
def outerFires (env : Env) : Bool :=
  match env.unmountTime with
  | none => true
  | some u => decide (1500 < u)

/-- Whether the inner 300-unit fallback timer gets scheduled in this
execution. -/
def innerTimerScheduled (p : Props) (env : Env) : Bool :=
  outerFires env && (postTimerAction p env).2

/-- The full timed event trace of one mounted instance.  The inner timer,
once scheduled, is never cancelled by the cleanup function (only the outer
timer handle is cleared), so its events occur unconditionally at absolute
time 1800. -/
def trace (p : Props) (env : Env) : List (Nat × Event) :=
  if outerFires env then
    ((postTimerAction p env).1.map (fun e => (1500, e))) ++
    (if (postTimerAction p env).2 then
       (fallbackCheckEvents (cleanPathOf ((p.redirectTo).getD "")) env).map
         (fun e => (1800, e))
     else [])
  else []

/-- Whether one of the operations inside the `try` block throws in this
execution. -/
def actionThrows (p : Props) (env : Env) : Bool :=
  if p.onComplete then env.onCompleteThrows
  else if truthy p.redirectTo then env.navigateThrows || env.scheduleThrows
  else env.navigateThrows

/-- The outer timer is pending from mount (time 0) until it fires at 1500,
unless the instance unmounted first (cleanup clears it). -/
def outerTimerActive (env : Env) (t : Nat) : Bool :=
  decide (t < 1500) &&
    (match env.unmountTime with
     | none => true
     | some u => decide (t < u))

/-- The inner timer, when scheduled, is pending from 1500 until it fires at
1800; unmount does not clear it. -/
def innerTimerActive (p : Props) (env : Env) (t : Nat) : Bool :=
  innerTimerScheduled p env && decide (1500 ≤ t) && decide (t < 1800)

/-- Number of timers scheduled by the component that are pending at time
`t`. -/
def activeTimerCount (p : Props) (env : Env) (t : Nat) : Nat :=
  (if outerTimerActive env t then 1 else 0) +
  (if innerTimerActive p env t then 1 else 0)

/-- Whether some event of the trace occurs at or after the unmount time. -/
def firesAfterUnmount (p : Props) (env : Env) : Bool :=
  match env.unmountTime with
  | none => false
  | some u => (trace p env).any (fun te => decide (u ≤ te.1))

/-- Number of occurrences of an event in a trace. -/
def countEvent (tr : List (Nat × Event)) (e : Event) : Nat :=
  tr.countP (fun te => te.2 == e)

/-- Recognizer for primary-navigation-service requests. -/
def isNavigateEvent : Event → Bool
  | Event.navigate _ => true
  | _ => false

/-- Number of primary-navigation-service requests in a trace. -/
def navigateCount (tr : List (Nat × Event)) : Nat :=
  tr.countP (fun te => isNavigateEvent te.2)

/-- Stored-theme falsiness: `localStorage.getItem` returns a string or
null, and JS negation of that value is true for null and for the empty
string. -/
def jsFalsy : Option String → Bool
  | none => true
  | some s => s.data.isEmpty

/-- The rendered dark-mode flag, computed once per render: window must be
defined, and then either the document root carries the dark class, or the
stored theme lookup is JS-falsy and the media query reports a preference
for dark appearance. -/
def isDarkMode (windowDefined darkClassOnRoot : Bool)
    (storedTheme : Option String) (systemDark : Bool) : Bool :=
  windowDefined &&
    (darkClassOnRoot || (jsFalsy storedTheme && systemDark))

/-- Props with only `redirectTo = "/menu"` provided. -/
def menuProps : Props := { onComplete := false, redirectTo := some "/menu" }

/-- Props with neither `onComplete` nor `redirectTo` provided. -/
def defaultProps : Props := { onComplete := false, redirectTo := none }

/-- An environment where nothing throws, the pathname stays `"/"`, and the
instance never unmounts. -/
def envPlain : Env :=
  { onCompleteThrows := false, navigateThrows := false,
    scheduleThrows := false, pathname := "/", unmountTime := none }

-- sanity checks on concrete inputs
example : cleanPathOf "/menu" = "menu" := by decide
example : truthy (some "/menu") = true := by decide
example : truthy (some "") = false := by decide
example : pathContains "/menu/x" "menu" = true := by decide
example : pathContains "/" "menu" = false := by decide
example : pathContains "/anything" "" = true := by decide
example :
    trace menuProps
      { onCompleteThrows := false, navigateThrows := false,
        scheduleThrows := false, pathname := "/", unmountTime := some 1600 } =
    [(1500, Event.navigate "menu"), (1800, Event.setHref "#/menu")] := by decide

/-- C1: with `onComplete` absent and `redirectTo = "/menu"`, in an execution
where the outer timer fires and neither the navigation request nor the
scheduling of the fallback check throws, the primary navigation service is
requested exactly once, with the normalized path `"menu"`, at time 1500;
if at time 1800 the current pathname does not contain `"menu"`, the
location is directly assigned `"#/menu"`; otherwise nothing further
happens. -/
theorem C1_redirect_menu (env : Env)
    (hfire : outerFires env = true)
    (hnav : env.navigateThrows = false)
    (hsch : env.scheduleThrows = false) :
    countEvent (trace menuProps env) (Event.navigate "menu") = 1 ∧
    navigateCount (trace menuProps env) = 1 ∧
    (pathContains env.pathname "menu" = false →
      trace menuProps env =
        [(1500, Event.navigate "menu"), (1800, Event.setHref "#/menu")]) ∧
    (pathContains env.pathname "menu" = true →
      trace menuProps env = [(1500, Event.navigate "menu")]) := by
  have htr : truthy (some "/menu") = true := by decide
  have hcp : cleanPathOf "/menu" = "menu" := by decide
  have happ : "#/" ++ "menu" = "#/menu" := by decide
  cases hpc : pathContains env.pathname "menu"
  · have ht : trace menuProps env =
        [(1500, Event.navigate "menu"), (1800, Event.setHref "#/menu")] := by
      simp [trace, hfire, postTimerAction, menuProps, htr, hnav, hsch,
        fallbackCheckEvents, hcp, hpc, happ]
    rw [ht]
    exact ⟨by decide, by decide, fun _ => rfl, fun h => Bool.noConfusion h⟩
  · have ht : trace menuProps env = [(1500, Event.navigate "menu")] := by
      simp [trace, hfire, postTimerAction, menuProps, htr, hnav, hsch,
        fallbackCheckEvents, hcp, hpc]
    rw [ht]
    exact ⟨by decide, by decide, fun h => Bool.noConfusion h, fun _ => rfl⟩

/-- C1 witness: in the plain environment (pathname `"/"`, nothing throws,
no unmount) the trace is the navigation request followed by the fallback
assignment. -/
theorem C1_witness :
    trace menuProps envPlain =
      [(1500, Event.navigate "menu"), (1800, Event.setHref "#/menu")] :=
  (C1_redirect_menu envPlain rfl rfl rfl).2.2.1 (by decide)

/-- C2: whenever `onComplete` is provided and the outer timer fires, the
callback is invoked exactly once and the primary navigation service is
never requested, whatever `redirectTo` is and even if the callback
throws. -/
theorem C2_onComplete_invoked_once (p : Props) (env : Env)
    (hc : p.onComplete = true) (hfire : outerFires env = true) :
    countEvent (trace p env) Event.callOnComplete = 1 ∧
    navigateCount (trace p env) = 0 := by
  cases hoc : env.onCompleteThrows
  · have ht : trace p env = [(1500, Event.callOnComplete)] := by
      simp [trace, hfire, postTimerAction, hc, hoc]
    rw [ht]; exact ⟨by decide, by decide⟩
  · have ht : trace p env =
        [(1500, Event.callOnComplete), (1500, Event.logError),
         (1500, Event.setHash "#/home")] := by
      simp [trace, hfire, postTimerAction, hc, hoc]
    rw [ht]; exact ⟨by decide, by decide⟩

/-- C2 witness: concrete instance with both props provided. -/
theorem C2_witness :
    countEvent (trace { onComplete := true, redirectTo := some "/menu" } envPlain)
      Event.callOnComplete = 1 ∧
    navigateCount (trace { onComplete := true, redirectTo := some "/menu" } envPlain) = 0 :=
  C2_onComplete_invoked_once _ envPlain rfl rfl

/-- C3: with neither prop provided, once the outer timer fires the primary
navigation service is requested exactly once, with the path `"/home"`
(even if that request throws, it was still made exactly once). -/
theorem C3_default_navigates_home (env : Env)
    (hfire : outerFires env = true) :
    countEvent (trace defaultProps env) (Event.navigate "/home") = 1 ∧
    navigateCount (trace defaultProps env) = 1 := by
  cases hnav : env.navigateThrows
  · have ht : trace defaultProps env = [(1500, Event.navigate "/home")] := by
      simp [trace, hfire, postTimerAction, defaultProps, truthy, hnav]
    rw [ht]; exact ⟨by decide, by decide⟩
  · have ht : trace defaultProps env =
        [(1500, Event.navigate "/home"), (1500, Event.logError),
         (1500, Event.setHash "#/home")] := by
      simp [trace, hfire, postTimerAction, defaultProps, truthy, hnav]
    rw [ht]; exact ⟨by decide, by decide⟩

/-- C3 witness. -/
theorem C3_witness :
    countEvent (trace defaultProps envPlain) (Event.navigate "/home") = 1 ∧
    navigateCount (trace defaultProps envPlain) = 1 :=
  C3_default_navigates_home envPlain rfl

/-- An environment in which the `onComplete` callback throws. -/
def envCallbackThrows : Env :=
  { onCompleteThrows := true, navigateThrows := false,
    scheduleThrows := false, pathname := "/", unmountTime := none }

/-- C4: if any of the operations inside the `try` block (callback
invocation, navigation request, or scheduling of the fallback check)
throws, the exception is caught inside the component — the embedding is a
total function, so nothing escapes — exactly one diagnostic log entry is
produced, and `window.location.hash` is assigned `"#/home"`; in particular
the fallback check is never scheduled. -/
theorem C4_errors_caught (p : Props) (env : Env)
    (hfire : outerFires env = true) (hthrow : actionThrows p env = true) :
    countEvent (trace p env) Event.logError = 1 ∧
    (1500, Event.setHash "#/home") ∈ trace p env ∧
    innerTimerScheduled p env = false := by
  cases hc : p.onComplete
  · cases htr : truthy p.redirectTo
    · have hnav : env.navigateThrows = true := by
        simpa [actionThrows, hc, htr] using hthrow
      have ht : trace p env =
          [(1500, Event.navigate "/home"), (1500, Event.logError),
           (1500, Event.setHash "#/home")] := by
        simp [trace, hfire, postTimerAction, hc, htr, hnav]
      have hin : innerTimerScheduled p env = false := by
        simp [innerTimerScheduled, postTimerAction, hc, htr, hnav]
      rw [ht]; exact ⟨by decide, by decide, hin⟩
    · have hor : env.navigateThrows = true ∨ env.scheduleThrows = true := by
        have := hthrow
        simp [actionThrows, hc, htr] at this
        exact this
      have ht : trace p env =
          [(1500, Event.navigate (cleanPathOf ((p.redirectTo).getD ""))),
           (1500, Event.logError), (1500, Event.setHash "#/home")] := by
        rcases hor with hnav | hsch
        · simp [trace, hfire, postTimerAction, hc, htr, hnav]
        · cases hnav : env.navigateThrows <;>
            simp [trace, hfire, postTimerAction, hc, htr, hnav, hsch]
      have hin : innerTimerScheduled p env = false := by
        rcases hor with hnav | hsch
        · simp [innerTimerScheduled, postTimerAction, hc, htr, hnav]
        · cases hnav : env.navigateThrows <;>
            simp [innerTimerScheduled, postTimerAction, hc, htr, hnav, hsch]
      have hbeq : (Event.navigate (cleanPathOf ((p.redirectTo).getD ""))
          == Event.logError) = false := rfl
      rw [ht]
      refine ⟨?_, by simp, hin⟩
      simp [countEvent, List.countP_cons, List.countP_nil, hbeq]
  · have hoc : env.onCompleteThrows = true := by
      simpa [actionThrows, hc] using hthrow
    have ht : trace p env =
        [(1500, Event.callOnComplete), (1500, Event.logError),
         (1500, Event.setHash "#/home")] := by
      simp [trace, hfire, postTimerAction, hc, hoc]
    have hin : innerTimerScheduled p env = false := by
      simp [innerTimerScheduled, postTimerAction, hc, hoc]
    rw [ht]; exact ⟨by decide, by decide, hin⟩

/-- C4 witness: a throwing callback is caught, logged once, and the hash
fallback applied. -/
theorem C4_witness :
    countEvent (trace { onComplete := true, redirectTo := none } envCallbackThrows)
      Event.logError = 1 ∧
    (1500, Event.setHash "#/home") ∈
      trace { onComplete := true, redirectTo := none } envCallbackThrows ∧
    innerTimerScheduled { onComplete := true, redirectTo := none } envCallbackThrows
      = false :=
  C4_errors_caught _ envCallbackThrows rfl rfl

/-- An environment identical to `envPlain` except that the instance
unmounts at time 1600, between the outer timer firing (1500) and the inner
fallback check (1800). -/
def envLateUnmount : Env :=
  { onCompleteThrows := false, navigateThrows := false,
    scheduleThrows := false, pathname := "/", unmountTime := some 1600 }

/-- An environment identical to `envPlain` except that the instance
unmounts at time 1000, before the outer timer fires. -/
def envEarlyUnmount : Env :=
  { onCompleteThrows := false, navigateThrows := false,
    scheduleThrows := false, pathname := "/", unmountTime := some 1000 }

/-- C5 counterexample: with `redirectTo = "/menu"` and unmount at time
1600, the inner fallback timer (which the cleanup function does not clear)
still fires at time 1800, after unmount, and performs the direct location
assignment — so it is not the case that every timer the component
scheduled is cancelled before the instance is destroyed. -/
theorem C5_counterexample :
    envLateUnmount.unmountTime = some 1600 ∧
    (1800, Event.setHref "#/menu") ∈ trace menuProps envLateUnmount ∧
    firesAfterUnmount menuProps envLateUnmount = true := by decide

/-- C5 (amended): at any instant at most one timer scheduled by the
component is pending, and the outer timer is always cancelled on unmount
(if unmount happens at or before time 1500 the whole trace is empty); the
inner 300-unit fallback timer, however, is not cancelled once scheduled,
so a fallback location assignment may still fire after unmount. -/
theorem C5_at_most_one_timer_outer_cancelled (p : Props) (env : Env) (t : Nat) :
    activeTimerCount p env t ≤ 1 ∧
    (∀ u, env.unmountTime = some u → u ≤ 1500 → trace p env = []) := by
  constructor
  · by_cases h : t < 1500
    · have hd : decide (1500 ≤ t) = false := by
        simp only [decide_eq_false_iff_not]
        omega
      have hi : innerTimerActive p env t = false := by
        simp [innerTimerActive, hd]
      have hc : activeTimerCount p env t =
          if outerTimerActive env t then 1 else 0 := by
        simp [activeTimerCount, hi]
      rw [hc]
      cases outerTimerActive env t <;> simp
    · have hd : decide (t < 1500) = false := by
        simp only [decide_eq_false_iff_not]
        omega
      have ho : outerTimerActive env t = false := by
        simp [outerTimerActive, hd]
      have hc : activeTimerCount p env t =
          if innerTimerActive p env t then 1 else 0 := by
        simp [activeTimerCount, ho]
      rw [hc]
      cases innerTimerActive p env t <;> simp
  · intro u hu hle
    have hof : outerFires env = false := by
      simp only [outerFires, hu, decide_eq_false_iff_not]
      omega
    simp [trace, hof]

/-- C5 amended-claim witness: with unmount at time 1000, one timer at most
is pending at time 1000 and the trace is empty. -/
theorem C5_amended_witness :
    activeTimerCount menuProps envEarlyUnmount 1000 ≤ 1 ∧
    trace menuProps envEarlyUnmount = [] :=
  ⟨(C5_at_most_one_timer_outer_cancelled menuProps envEarlyUnmount 1000).1,
   (C5_at_most_one_timer_outer_cancelled menuProps envEarlyUnmount 1000).2
     1000 rfl (by decide)⟩

/-- C6: if the instance unmounts strictly before the 1500-unit delay
elapses, the cleanup function clears the outer timer, so the execution
produces no event at all: no callback invocation and no navigation request
of any kind. -/
theorem C6_unmount_before_delay_no_events (p : Props) (env : Env) (u : Nat)
    (hu : env.unmountTime = some u) (hlt : u < 1500) :
    trace p env = [] := by
  have hof : outerFires env = false := by
    simp only [outerFires, hu, decide_eq_false_iff_not]
    omega
  simp [trace, hof]

/-- C6 witness. -/
theorem C6_witness : trace menuProps envEarlyUnmount = [] :=
  C6_unmount_before_delay_no_events menuProps envEarlyUnmount 1000 rfl (by decide)

/-- C7: in a rendered (window-defined) context, the dark-mode flag is true
exactly when the document root carries the dark marker, or when the stored
theme lookup yields nothing (JS-falsy, i.e. absent or empty) and the
environment reports a dark-appearance preference. -/
theorem C7_dark_mode_flag (windowDefined darkClassOnRoot systemDark : Bool)
    (storedTheme : Option String)
    (hw : windowDefined = true) :
    isDarkMode windowDefined darkClassOnRoot storedTheme systemDark = true ↔
      (darkClassOnRoot = true ∨
        (jsFalsy storedTheme = true ∧ systemDark = true)) := by
  subst hw
  simp [isDarkMode]

/-- C7 witness: dark marker absent, no stored preference, system dark. -/
theorem C7_witness :
    isDarkMode true false none true = true ↔
      (false = true ∨ (jsFalsy none = true ∧ true = true)) :=
  C7_dark_mode_flag true false true none rfl

/-- Props with `onComplete` absent and `redirectTo` provided as the empty
string, which is JS-falsy. -/
def emptyRedirectProps : Props := { onComplete := false, redirectTo := some "" }

/-- C8: with `redirectTo = ""` the truthiness test fails, so the component
behaves exactly as with `redirectTo` absent: the trace coincides with the
default one, no fallback check is ever scheduled, and (when the timer
fires) navigation to `"/home"` is requested exactly once. -/
theorem C8_empty_string_redirect (env : Env) (hfire : outerFires env = true) :
    trace emptyRedirectProps env = trace defaultProps env ∧
    innerTimerScheduled emptyRedirectProps env = false ∧
    countEvent (trace emptyRedirectProps env) (Event.navigate "/home") = 1 := by
  have htr : truthy (some "") = false := by decide
  cases hnav : env.navigateThrows
  · have h1 : trace emptyRedirectProps env = [(1500, Event.navigate "/home")] := by
      simp [trace, hfire, postTimerAction, emptyRedirectProps, htr, hnav]
    have h2 : trace defaultProps env = [(1500, Event.navigate "/home")] := by
      simp [trace, hfire, postTimerAction, defaultProps, truthy, hnav]
    have h3 : innerTimerScheduled emptyRedirectProps env = false := by
      simp [innerTimerScheduled, postTimerAction, emptyRedirectProps, htr, hnav]
    rw [h1, h2]
    exact ⟨rfl, h3, by decide⟩
  · have h1 : trace emptyRedirectProps env =
        [(1500, Event.navigate "/home"), (1500, Event.logError),
         (1500, Event.setHash "#/home")] := by
      simp [trace, hfire, postTimerAction, emptyRedirectProps, htr, hnav]
    have h2 : trace defaultProps env =
        [(1500, Event.navigate "/home"), (1500, Event.logError),
         (1500, Event.setHash "#/home")] := by
      simp [trace, hfire, postTimerAction, defaultProps, truthy, hnav]
    have h3 : innerTimerScheduled emptyRedirectProps env = false := by
      simp [innerTimerScheduled, postTimerAction, emptyRedirectProps, htr, hnav]
    rw [h1, h2]
    exact ⟨rfl, h3, by decide⟩

/-- C8 witness. -/
theorem C8_witness :
    trace emptyRedirectProps envPlain = trace defaultProps envPlain ∧
    innerTimerScheduled emptyRedirectProps envPlain = false ∧
    countEvent (trace emptyRedirectProps envPlain) (Event.navigate "/home") = 1 :=
  C8_empty_string_redirect envPlain rfl

/-- The empty string is a contiguous substring of every string: indexOf of
an empty needle is 0, never -1. -/
theorem containsSubstr_nil_right (l : List Char) : containsSubstr l [] = true := by
  cases l <;> simp [containsSubstr, List.isPrefixOf]

/-- Props with `onComplete` absent and `redirectTo = "/"`, whose
normalized path is the empty string. -/
def rootRedirectProps : Props := { onComplete := false, redirectTo := some "/" }

/-- C9: with `redirectTo = "/"` the clean path is `""`, and since every
pathname contains the empty string the 300-unit fallback check never
performs the direct location assignment: no `setHref` event ever appears
in the trace, whatever the environment. -/
theorem C9_root_redirect_never_falls_back (env : Env) (t : Nat) (u : String) :
    (t, Event.setHref u) ∉ trace rootRedirectProps env := by
  have htr : truthy (some "/") = true := by decide
  have hcp : cleanPathOf "/" = "" := by decide
  have hfb : fallbackCheckEvents "" env = [] := by
    have hd : ("" : String).data = [] := by decide
    simp [fallbackCheckEvents, pathContains, hd, containsSubstr_nil_right]
  cases hfire : outerFires env
  · simp [trace, hfire]
  · cases hnav : env.navigateThrows
    · cases hsch : env.scheduleThrows
      · have ht : trace rootRedirectProps env = [(1500, Event.navigate "")] := by
          simp [trace, hfire, postTimerAction, rootRedirectProps, htr, hnav,
            hsch, hcp, hfb]
        simp [ht]
      · have ht : trace rootRedirectProps env =
            [(1500, Event.navigate ""), (1500, Event.logError),
             (1500, Event.setHash "#/home")] := by
          simp [trace, hfire, postTimerAction, rootRedirectProps, htr, hnav,
            hsch, hcp]
        simp [ht]
    · have ht : trace rootRedirectProps env =
          [(1500, Event.navigate ""), (1500, Event.logError),
           (1500, Event.setHash "#/home")] := by
        simp [trace, hfire, postTimerAction, rootRedirectProps, htr, hnav, hcp]
      simp [ht]

/-- C9 witness. -/
theorem C9_witness : (1800, Event.setHref "#/") ∉ trace rootRedirectProps envPlain :=
  C9_root_redirect_never_falls_back envPlain 1800 "#/"

/-- An environment whose pathname already contains `"menu"` at the time of
the fallback check. -/
def envOnMenu : Env :=
  { onCompleteThrows := false, navigateThrows := false,
    scheduleThrows := false, pathname := "/menu", unmountTime := none }

/-- C10: with `onComplete` absent and `redirectTo` provided, if at the time
of the 300-unit fallback check the current pathname contains the
normalized path, the fallback check performs no direct location
assignment: no `setHref` event appears in the trace. -/
theorem C10_no_fallback_when_path_matches (p : Props) (env : Env) (s : String)
    (hc : p.onComplete = false) (hr : p.redirectTo = some s)
    (hpc : pathContains env.pathname (cleanPathOf s) = true) :
    ∀ t u, (t, Event.setHref u) ∉ trace p env := by
  intro t u
  have hfb : fallbackCheckEvents (cleanPathOf ((p.redirectTo).getD "")) env = [] := by
    simp [fallbackCheckEvents, hr, hpc]
  cases hfire : outerFires env
  · simp [trace, hfire]
  · cases htr : truthy p.redirectTo
    · cases hnav : env.navigateThrows
      · have ht : trace p env = [(1500, Event.navigate "/home")] := by
          simp [trace, hfire, postTimerAction, hc, htr, hnav]
        simp [ht]
      · have ht : trace p env =
            [(1500, Event.navigate "/home"), (1500, Event.logError),
             (1500, Event.setHash "#/home")] := by
          simp [trace, hfire, postTimerAction, hc, htr, hnav]
        simp [ht]
    · cases hnav : env.navigateThrows
      · cases hsch : env.scheduleThrows
        · have ht : trace p env =
              [(1500, Event.navigate (cleanPathOf ((p.redirectTo).getD "")))] := by
            simp [trace, hfire, postTimerAction, hc, htr, hnav, hsch, hfb]
          simp [ht]
        · have ht : trace p env =
              [(1500, Event.navigate (cleanPathOf ((p.redirectTo).getD ""))),
               (1500, Event.logError), (1500, Event.setHash "#/home")] := by
            simp [trace, hfire, postTimerAction, hc, htr, hnav, hsch]
          simp [ht]
      · have ht : trace p env =
            [(1500, Event.navigate (cleanPathOf ((p.redirectTo).getD ""))),
             (1500, Event.logError), (1500, Event.setHash "#/home")] := by
          simp [trace, hfire, postTimerAction, hc, htr, hnav]
        simp [ht]

/-- C10 witness: pathname `"/menu"` already contains the clean path
`"menu"`, so no direct location assignment appears. -/
theorem C10_witness : (1800, Event.setHref "#/menu") ∉ trace menuProps envOnMenu :=
  C10_no_fallback_when_path_matches menuProps envOnMenu "/menu" rfl rfl
    (by decide) 1800 "#/menu"

end SplashScreen
